import Mathlib

/-!
Shallow embedding of the runboat controller (`src/runboat/controller.py`).

The controller module itself is translated directly from the source.  The
collaborators it imports (`BuildsDb` from `db.py`, `Build` and the status
enums from `models.py`, `settings`, and the `k8s` watch streams) are not part
of the available source tree; they are modelled from the specification, each
such definition carrying a doc comment starting with `Modelled from the spec:`.
-/

/-- Modelled from the spec: build status, one of
`{deploying, started, stopped, undeployed}` (`models.BuildStatus`). -/
inductive BuildStatus
  | deploying
  | started
  | stopped
  | undeployed
deriving DecidableEq, Repr, BEq

/-- Modelled from the spec: init status, one of `{todo, started, succeeded,
failed}` (`models.BuildInitStatus`). -/
inductive BuildInitStatus
  | todo
  | started
  | succeeded
  | failed
deriving DecidableEq, Repr, BEq

/-- Modelled from the spec: one build record (`models.Build`): identity
`(repo, target_branch, pr, git_commit)`, a name that keys BuildsDb, the two
status axes and the timestamp used for oldest-first ordering. -/
structure Build where
  name : String
  repo : String
  target_branch : String
  pr : Option Nat
  git_commit : String
  status : BuildStatus
  init_status : BuildInitStatus
  last_transition_time : Nat
deriving DecidableEq, Repr, BEq

/-- Modelled from the spec: the in-memory index over the current build set
(`db.BuildsDb`), a mapping from build name to Build kept in arrival order. -/
structure BuildsDb where
  builds : List Build
deriving DecidableEq, Repr

/-- Modelled from the spec: `BuildsDb()` starts empty; the db is rebuilt
empty at the start of every deployment-watch session. -/
def BuildsDb.empty : BuildsDb := ⟨[]⟩

/-- Modelled from the spec: insert/replace by name (upsert); a name already
present is replaced in place, a new name is appended (arrival order). -/
def BuildsDb.add (db : BuildsDb) (b : Build) : BuildsDb :=
  if db.builds.any (fun x => x.name == b.name) then
    ⟨db.builds.map (fun x => if x.name == b.name then b else x)⟩
  else
    ⟨db.builds ++ [b]⟩

/-- Modelled from the spec: remove by name. -/
def BuildsDb.remove (db : BuildsDb) (name : String) : BuildsDb :=
  ⟨db.builds.filter (fun x => x.name != name)⟩

/-- Modelled from the spec: point lookup by name. -/
def BuildsDb.get (db : BuildsDb) (name : String) : Option Build :=
  db.builds.find? (fun x => x.name == name)

/-- Modelled from the spec: point lookup by `(repo, target_branch, pr,
git_commit)` identity. -/
def BuildsDb.get_for_commit (db : BuildsDb) (repo : String)
    (target_branch : String) (pr : Option Nat) (git_commit : String) :
    Option Build :=
  db.builds.find? (fun x =>
    x.repo == repo && x.target_branch == target_branch && x.pr == pr &&
      x.git_commit == git_commit)

/-- Modelled from the spec: count of builds matching a status. -/
def BuildsDb.count_by_status (db : BuildsDb) (status : BuildStatus) : Nat :=
  db.builds.countP (fun x => x.status == status)

/-- Modelled from the spec: count of builds matching an init status. -/
def BuildsDb.count_by_init_status (db : BuildsDb)
    (init_status : BuildInitStatus) : Nat :=
  db.builds.countP (fun x => x.init_status == init_status)

/-- Modelled from the spec: total build count. -/
def BuildsDb.count_all (db : BuildsDb) : Nat :=
  db.builds.length

/-- Modelled from the spec: ordering key for the two oldest-first queries —
`last_transition_time` ascending with a stable tie-break by name. -/
def Build.age_le (a b : Build) : Bool :=
  a.last_transition_time < b.last_transition_time ||
    (a.last_transition_time == b.last_transition_time && a.name ≤ b.name)

/-- Insert a build into a list sorted by `Build.age_le`. -/
def Build.insert_by_age (b : Build) : List Build → List Build
  | [] => [b]
  | x :: xs => if Build.age_le b x then b :: x :: xs else x :: Build.insert_by_age b xs

/-- Sort a list of builds by `Build.age_le` (insertion sort: deterministic,
oldest first). -/
def Build.sort_by_age : List Build → List Build
  | [] => []
  | x :: xs => Build.insert_by_age x (Build.sort_by_age xs)

/-- Modelled from the spec: builds eligible for initialization
(`init_status = todo`) in arrival order, at most `limit` of them. -/
def BuildsDb.to_initialize_list (db : BuildsDb) (limit : Nat) : List Build :=
  (db.builds.filter (fun x => x.init_status == BuildInitStatus.todo)).take limit

/-- Modelled from the spec: started builds ordered oldest first, at most
`limit` of them. -/
def BuildsDb.oldest_started (db : BuildsDb) (limit : Nat) : List Build :=
  (Build.sort_by_age
    (db.builds.filter (fun x => x.status == BuildStatus.started))).take limit

/-- Modelled from the spec: stopped builds ordered oldest first, at most
`limit` of them. -/
def BuildsDb.oldest_stopped (db : BuildsDb) (limit : Nat) : List Build :=
  (Build.sort_by_age
    (db.builds.filter (fun x => x.status == BuildStatus.stopped))).take limit

/-- Modelled from the spec: the configured capacity limits
(`settings.max_started`, `settings.max_initializing`,
`settings.max_deployed`). -/
structure Settings where
  max_started : Nat
  max_initializing : Nat
  max_deployed : Nat
deriving DecidableEq, Repr

/-- `Controller.started` (controller.py line 44): live count of builds with
status `started`. -/
def Controller.started (db : BuildsDb) : Nat :=
  db.count_by_status BuildStatus.started

/-- `Controller.initializing` (controller.py line 52): live count of builds
with init status `started`. -/
def Controller.initializing (db : BuildsDb) : Nat :=
  db.count_by_init_status BuildInitStatus.started

/-- `Controller.deployed` (controller.py line 60): live total build count. -/
def Controller.deployed (db : BuildsDb) : Nat :=
  db.count_all

/-- The build action a scheduler wake cycle invokes on a candidate. -/
inductive BuildAction
  | init (b : Build)
  | stop (b : Build)
  | undeploy (b : Build)
deriving DecidableEq, Repr

/-- One wake cycle of `Controller.initializer` (controller.py lines 148-162):
`can_init = max_initializing - initializing`; if non-positive, back to
sleep; otherwise select `to_initialize_list(limit=can_init)` and initialize
each candidate in order. -/
def Controller.initializer_cycle (s : Settings) (db : BuildsDb) : List BuildAction :=
  let can_init : Int :=
    (s.max_initializing : Int) - (Controller.initializing db : Int)
  if can_init ≤ 0 then []
  else
    let to_init := db.to_initialize_list can_init.toNat
    if to_init.isEmpty then []
    else to_init.map BuildAction.init

/-- One wake cycle of `Controller.stopper` (controller.py lines 164-178):
`can_stop = started - max_started`; if non-positive, back to sleep; otherwise
select `oldest_started(limit=can_stop)` and stop each candidate in order. -/
def Controller.stopper_cycle (s : Settings) (db : BuildsDb) : List BuildAction :=
  let can_stop : Int :=
    (Controller.started db : Int) - (s.max_started : Int)
  if can_stop ≤ 0 then []
  else
    let to_stop := db.oldest_started can_stop.toNat
    if to_stop.isEmpty then []
    else to_stop.map BuildAction.stop

/-- One wake cycle of `Controller.undeployer` (controller.py lines 180-194):
`can_undeploy = deployed - max_deployed`; if non-positive, back to sleep;
otherwise select `oldest_stopped(limit=can_undeploy)` and undeploy each
candidate in order. -/
def Controller.undeployer_cycle (s : Settings) (db : BuildsDb) : List BuildAction :=
  let can_undeploy : Int :=
    (Controller.deployed db : Int) - (s.max_deployed : Int)
  if can_undeploy ≤ 0 then []
  else
    let to_undeploy := db.oldest_stopped can_undeploy.toNat
    if to_undeploy.isEmpty then []
    else to_undeploy.map BuildAction.undeploy

/-- The action a `deploy_or_delay_start` call resolves to: either `start()` on
an existing build, or `Build.deploy` with the given identity. -/
inductive DeployAction
  | start (b : Build)
  | deploy (repo : String) (target_branch : String) (pr : Option Nat)
      (git_commit : String)
deriving DecidableEq, Repr

/-- Whether a `DeployAction` creates a deployment. -/
def DeployAction.is_deploy : DeployAction → Bool
  | DeployAction.start _ => false
  | DeployAction.deploy _ _ _ _ => true

/-- `Controller.deploy_or_delay_start` (controller.py lines 68-85): look up
the build by exact commit identity; if found, start it, otherwise deploy a
new build with that identity. -/
def Controller.deploy_or_delay_start (db : BuildsDb) (repo : String)
    (target_branch : String) (pr : Option Nat) (git_commit : String) :
    DeployAction :=
  match db.get_for_commit repo target_branch pr git_commit with
  | some build => DeployAction.start build
  | none => DeployAction.deploy repo target_branch pr git_commit

/-- Lookup of a label value on a resource's label mapping,
like python's `labels.get(key)`. -/
def labelGet (labels : List (String × String)) (key : String) :
    Option String :=
  (labels.find? (fun kv => kv.1 == key)).map (fun kv => kv.2)

/-- Modelled from the spec: a deployment resource from the watch stream,
exposing its label set and the Build derived from its current spec/labels
(the derivation `Build.from_deployment` lives in the missing `models.py`, so
the derived build is carried as a field). -/
structure Deployment where
  labels : List (String × String)
  derived_build : Build
deriving DecidableEq, Repr

/-- Modelled from the spec: `Build.from_deployment` derives a Build from the
deployment resource's current spec/labels. -/
def Build.from_deployment (d : Deployment) : Build :=
  d.derived_build

/-- One event step of `Controller.deployment_watcher` (controller.py lines
97-110): events without a truthy `runboat/build` label are skipped; otherwise
`ADDED`/`MODIFIED` upserts `Build.from_deployment`, `DELETED` removes by name,
any other event type is only logged; `_wakeup()` runs after every processed
event.  Returns the new db and whether the wakeup event was signalled. -/
def Controller.deployment_watcher_step (db : BuildsDb) (event_type : String)
    (deployment : Deployment) : BuildsDb × Bool :=
  match labelGet deployment.labels "runboat/build" with
  | none => (db, false)
  | some build_name =>
    if build_name = "" then (db, false)
    else
      let db' :=
        if event_type = "ADDED" ∨ event_type = "MODIFIED" then
          db.add (Build.from_deployment deployment)
        else if event_type = "DELETED" then
          db.remove build_name
        else
          db
      (db', true)

/-- Fold `deployment_watcher_step` over a list of watch events. -/
def Controller.deployment_watcher_events (db : BuildsDb)
    (events : List (String × Deployment)) : BuildsDb :=
  events.foldl
    (fun d e => (Controller.deployment_watcher_step d e.1 e.2).1) db

/-- One session of `Controller.deployment_watcher` (controller.py line 98):
the body begins with `self.reset()`, so the prior db is discarded and the
events of the new watch session are folded into an empty db. -/
def Controller.deployment_watcher_session (prior : BuildsDb)
    (events : List (String × Deployment)) : BuildsDb :=
  Controller.deployment_watcher_events BuildsDb.empty events

/-- The transition hook the job watcher invokes on a build. -/
inductive JobHook
  | initialize_succeeded
  | initialize_failed
  | initialize_started
  | cleanup_succeeded
  | cleanup_failed
  | cleanup_started
deriving DecidableEq, Repr

/-- Modelled from the spec: the job resource's status with its
succeeded/failed indicators (python truthiness of `job.status.succeeded` and
`job.status.failed`). -/
structure JobStatus where
  succeeded : Bool
  failed : Bool
deriving DecidableEq, Repr

/-- Modelled from the spec: a job resource from the watch stream, exposing
its label set (build label and job-kind label) and its status. -/
structure JobResource where
  labels : List (String × String)
  status : JobStatus
deriving DecidableEq, Repr

/-- Build resolution used by the job watcher (controller.py lines 122-128):
first from the db, falling back to the `Build.from_name` point lookup against
the orchestrator API (the k8s lookup is passed as the oracle `fromName`). -/
def Controller.resolve_build (db : BuildsDb)
    (fromName : String → Option Build) (build_name : String) : Option Build :=
  match db.get build_name with
  | some build => some build
  | none => fromName build_name

/-- One event step of `Controller.job_watcher` (controller.py lines 112-146):
skip events without a truthy `runboat/build` label or whose
`runboat/job-kind` label is outside `{initialize, cleanup}`; on
`ADDED`/`MODIFIED`, resolve the build (db first, then `from_name` fallback),
skip on a lookup miss, otherwise dispatch on the job status through the two
sequential job-kind branches of the source; `DELETED` and unexpected event
types do nothing.  Returns the list of invoked hooks in order. -/
def Controller.job_watcher_step (db : BuildsDb) (event_type : String)
    (job : JobResource) (fromName : String → Option Build) :
    List (Build × JobHook) :=
  match labelGet job.labels "runboat/build" with
  | none => []
  | some build_name =>
    if build_name = "" then []
    else
      let job_kind := labelGet job.labels "runboat/job-kind"
      if job_kind ≠ some "initialize" ∧ job_kind ≠ some "cleanup" then []
      else if event_type = "ADDED" ∨ event_type = "MODIFIED" then
        match Controller.resolve_build db fromName build_name with
        | none => []
        | some build =>
          (if job_kind = some "initialize" then
            [(build,
              if job.status.succeeded then JobHook.initialize_succeeded
              else if job.status.failed then JobHook.initialize_failed
              else JobHook.initialize_started)]
          else []) ++
          (if job_kind = some "cleanup" then
            [(build,
              if job.status.succeeded then JobHook.cleanup_succeeded
              else if job.status.failed then JobHook.cleanup_failed
              else JobHook.cleanup_started)]
          else [])
      else []

/-- An observable step of the `walking_dead` supervisor wrapper
(controller.py lines 199-210). -/
inductive SupEvent
  | restarting_log
  | run_body
  | exception_log
  | sleep_seconds (n : Nat)
deriving DecidableEq, Repr

/-- One iteration of the `walking_dead` loop (controller.py lines 200-210):
log "(Re)starting", run the loop body; if the body raised an unhandled
exception, log it and sleep 5 seconds before the next iteration. -/
def Controller.walking_dead_run (raised : Bool) : List SupEvent :=
  [SupEvent.restarting_log, SupEvent.run_body] ++
    (if raised then [SupEvent.exception_log, SupEvent.sleep_seconds 5] else [])

/-- The `walking_dead` supervisor over a sequence of body outcomes (`true` =
the body exited with an unhandled exception): each outcome yields one
iteration, restarting the same function from its beginning. -/
def Controller.walking_dead (outcomes : List Bool) : List SupEvent :=
  match outcomes with
  | [] => []
  | raised :: rest =>
    Controller.walking_dead_run raised ++ Controller.walking_dead rest

/-- A handle to a background task, with its cancellation flag. -/
structure TaskHandle where
  id : Nat
  cancelled : Bool
deriving DecidableEq, Repr

/-- `task.cancel()`: mark the task cancelled, same handle. -/
def TaskHandle.cancel (t : TaskHandle) : TaskHandle :=
  { t with cancelled := true }

/-- The task-related attributes of the Controller object: `_tasks`
(controller.py line 33) and the `_task` attribute that line 227 creates by
assignment (absent until then, hence an `Option`). -/
structure ControllerTasks where
  tasks : List TaskHandle
  task : Option (List TaskHandle)
deriving DecidableEq, Repr

/-- `Controller.stop` (controller.py lines 221-227): cancel every task in
`_tasks`, await them, then assign `[]` to `_task` — a different attribute, so
`_tasks` keeps holding the cancelled handles. -/
def Controller.stop_tasks (c : ControllerTasks) : ControllerTasks :=
  { tasks := c.tasks.map TaskHandle.cancel, task := some [] }

/-- `Controller.start` (controller.py lines 212-219): append one freshly
created task per loop function to `_tasks`. -/
def Controller.start_tasks (c : ControllerTasks)
    (newTasks : List TaskHandle) : ControllerTasks :=
  { c with tasks := c.tasks ++ newTasks }

/-- A BuildsDb mutation as performed by the deployment watcher. -/
inductive DbMutation
  | add (b : Build)
  | remove (name : String)
deriving DecidableEq, Repr

/-- Apply one mutation to the db. -/
def BuildsDb.apply_mutation (db : BuildsDb) : DbMutation → BuildsDb
  | DbMutation.add b => db.add b
  | DbMutation.remove n => db.remove n

/-- Apply a sequence of mutations to the db. -/
def BuildsDb.apply_mutations (db : BuildsDb) (ms : List DbMutation) :
    BuildsDb :=
  ms.foldl BuildsDb.apply_mutation db

/-- The stopper wake cycle as the spec sentence words it for all three loops:
available capacity computed as `limit - current_count`
(`max_started - started`), acting on at most that many oldest started builds
when the capacity is positive.  Refinement definition following the spec's
words, to be compared with `Controller.stopper_cycle` from the source. -/
def Controller.stopper_cycle_claimed (s : Settings) (db : BuildsDb) :
    List BuildAction :=
  let capacity : Int :=
    (s.max_started : Int) - (Controller.started db : Int)
  if capacity ≤ 0 then []
  else (db.oldest_started capacity.toNat).map BuildAction.stop

/-- A concrete build, for witnesses and counterexamples. -/
def mkBuild (name : String) (status : BuildStatus)
    (init_status : BuildInitStatus) (t : Nat) : Build :=
  { name := name, repo := "org/repo", target_branch := "16.0", pr := none,
    git_commit := "commit-" ++ name, status := status,
    init_status := init_status, last_transition_time := t }

/-- Settings with `max_started = 3`, `max_initializing = 2`,
`max_deployed = 6`, used at concrete inputs. -/
def sampleSettings : Settings :=
  { max_started := 3, max_initializing := 2, max_deployed := 6 }

/-- A db holding exactly two started builds. -/
def twoStartedDb : BuildsDb :=
  ⟨[mkBuild "b1" BuildStatus.started BuildInitStatus.succeeded 1,
    mkBuild "b2" BuildStatus.started BuildInitStatus.succeeded 2]⟩

/-- A db holding exactly three started builds and five stopped builds. -/
def threeStartedFiveStoppedDb : BuildsDb :=
  ⟨[mkBuild "s1" BuildStatus.started BuildInitStatus.succeeded 1,
    mkBuild "s2" BuildStatus.started BuildInitStatus.succeeded 2,
    mkBuild "s3" BuildStatus.started BuildInitStatus.succeeded 3,
    mkBuild "p1" BuildStatus.stopped BuildInitStatus.succeeded 4,
    mkBuild "p2" BuildStatus.stopped BuildInitStatus.succeeded 5,
    mkBuild "p3" BuildStatus.stopped BuildInitStatus.succeeded 6,
    mkBuild "p4" BuildStatus.stopped BuildInitStatus.succeeded 7,
    mkBuild "p5" BuildStatus.stopped BuildInitStatus.succeeded 8]⟩

theorem if_isEmpty_map_eq (l : List Build) (f : Build → BuildAction) :
    (if l.isEmpty then ([] : List BuildAction) else l.map f) = l.map f := by
  cases l with
  | nil => simp
  | cons x xs => simp

theorem BuildsDb.to_initialize_list_length_le (db : BuildsDb) (n : Nat) :
    (db.to_initialize_list n).length ≤ n := by
  simp only [BuildsDb.to_initialize_list, List.length_take]
  omega

theorem BuildsDb.oldest_started_length_le (db : BuildsDb) (n : Nat) :
    (db.oldest_started n).length ≤ n := by
  simp only [BuildsDb.oldest_started, List.length_take]
  omega

theorem BuildsDb.oldest_stopped_length_le (db : BuildsDb) (n : Nat) :
    (db.oldest_stopped n).length ≤ n := by
  simp only [BuildsDb.oldest_stopped, List.length_take]
  omega

theorem initializer_cycle_eq (s : Settings) (db : BuildsDb) :
    Controller.initializer_cycle s db =
      (db.to_initialize_list
        ((s.max_initializing : Int) -
          (Controller.initializing db : Int)).toNat).map
        BuildAction.init := by
  simp only [Controller.initializer_cycle]
  by_cases h :
      (s.max_initializing : Int) - (Controller.initializing db : Int) ≤ 0
  · rw [if_pos h]
    have h0 :
        ((s.max_initializing : Int) -
          (Controller.initializing db : Int)).toNat = 0 := by omega
    rw [h0]
    simp [BuildsDb.to_initialize_list]
  · rw [if_neg h, if_isEmpty_map_eq]

theorem stopper_cycle_eq (s : Settings) (db : BuildsDb) :
    Controller.stopper_cycle s db =
      (db.oldest_started
        ((Controller.started db : Int) - (s.max_started : Int)).toNat).map
        BuildAction.stop := by
  simp only [Controller.stopper_cycle]
  by_cases h : (Controller.started db : Int) - (s.max_started : Int) ≤ 0
  · rw [if_pos h]
    have h0 :
        ((Controller.started db : Int) - (s.max_started : Int)).toNat = 0 := by
      omega
    rw [h0]
    simp [BuildsDb.oldest_started]
  · rw [if_neg h, if_isEmpty_map_eq]

theorem undeployer_cycle_eq (s : Settings) (db : BuildsDb) :
    Controller.undeployer_cycle s db =
      (db.oldest_stopped
        ((Controller.deployed db : Int) - (s.max_deployed : Int)).toNat).map
        BuildAction.undeploy := by
  simp only [Controller.undeployer_cycle]
  by_cases h : (Controller.deployed db : Int) - (s.max_deployed : Int) ≤ 0
  · rw [if_pos h]
    have h0 :
        ((Controller.deployed db : Int) - (s.max_deployed : Int)).toNat = 0 := by
      omega
    rw [h0]
    simp [BuildsDb.oldest_stopped]
  · rw [if_neg h, if_isEmpty_map_eq]

/-- C1 counterexample: with `max_started = 3` and two started builds, the
claimed capacity formula `limit - current_count` is positive (`3 - 2 = 1`)
and would have the stopper stop one build, but the source's stopper computes
`started - max_started = -1` and does nothing, so the claim's description of
the stopper (and likewise the undeployer) is false of the code. -/
theorem stopper_capacity_formula_counterexample :
    Controller.stopper_cycle sampleSettings twoStartedDb ≠
      Controller.stopper_cycle_claimed sampleSettings twoStartedDb := by
  decide

/-- C1 (amended): each scheduler wake cycle computes a signed candidate
budget — the initializer as `max_initializing` minus the count of builds with
init status started, the stopper as the count of started builds minus
`max_started`, the undeployer as the total build count minus `max_deployed` —
and invokes the corresponding action exactly on the candidates returned by
the corresponding ordered query bounded by that budget (so never more than
the budget, and none when the budget is non-positive). -/
theorem scheduler_cycles_capacity_amended (s : Settings) (db : BuildsDb) :
    (Controller.initializer_cycle s db =
      (db.to_initialize_list
        ((s.max_initializing : Int) -
          (Controller.initializing db : Int)).toNat).map
        BuildAction.init) ∧
    ((Controller.initializer_cycle s db).length ≤
      ((s.max_initializing : Int) -
        (Controller.initializing db : Int)).toNat) ∧
    (Controller.stopper_cycle s db =
      (db.oldest_started
        ((Controller.started db : Int) - (s.max_started : Int)).toNat).map
        BuildAction.stop) ∧
    ((Controller.stopper_cycle s db).length ≤
      ((Controller.started db : Int) - (s.max_started : Int)).toNat) ∧
    (Controller.undeployer_cycle s db =
      (db.oldest_stopped
        ((Controller.deployed db : Int) - (s.max_deployed : Int)).toNat).map
        BuildAction.undeploy) ∧
    ((Controller.undeployer_cycle s db).length ≤
      ((Controller.deployed db : Int) - (s.max_deployed : Int)).toNat) := by
  refine ⟨initializer_cycle_eq s db, ?_, stopper_cycle_eq s db, ?_,
    undeployer_cycle_eq s db, ?_⟩
  · rw [initializer_cycle_eq s db, List.length_map]
    exact BuildsDb.to_initialize_list_length_le db _
  · rw [stopper_cycle_eq s db, List.length_map]
    exact BuildsDb.oldest_started_length_le db _
  · rw [undeployer_cycle_eq s db, List.length_map]
    exact BuildsDb.oldest_stopped_length_le db _

/-- C2: a scheduler wake cycle whose computed candidate budget is
non-positive, or whose bounded candidate query comes back empty, invokes no
build action; in particular with `max_started = 3` and exactly 3 started
builds the stopper stops nothing, however many other builds exist. -/
theorem scheduler_no_capacity_no_action (s : Settings) (db : BuildsDb) :
    ((s.max_initializing : Int) - (Controller.initializing db : Int) ≤ 0 →
      Controller.initializer_cycle s db = []) ∧
    (db.to_initialize_list
        ((s.max_initializing : Int) -
          (Controller.initializing db : Int)).toNat = [] →
      Controller.initializer_cycle s db = []) ∧
    ((Controller.started db : Int) - (s.max_started : Int) ≤ 0 →
      Controller.stopper_cycle s db = []) ∧
    (db.oldest_started
        ((Controller.started db : Int) - (s.max_started : Int)).toNat = [] →
      Controller.stopper_cycle s db = []) ∧
    ((Controller.deployed db : Int) - (s.max_deployed : Int) ≤ 0 →
      Controller.undeployer_cycle s db = []) ∧
    (db.oldest_stopped
        ((Controller.deployed db : Int) - (s.max_deployed : Int)).toNat = [] →
      Controller.undeployer_cycle s db = []) ∧
    (s.max_started = 3 → Controller.started db = 3 →
      Controller.stopper_cycle s db = []) := by
  refine ⟨?_, ?_, ?_, ?_, ?_, ?_, ?_⟩
  · intro h
    simp only [Controller.initializer_cycle]
    rw [if_pos h]
  · intro h
    rw [initializer_cycle_eq s db, h]
    rfl
  · intro h
    simp only [Controller.stopper_cycle]
    rw [if_pos h]
  · intro h
    rw [stopper_cycle_eq s db, h]
    rfl
  · intro h
    simp only [Controller.undeployer_cycle]
    rw [if_pos h]
  · intro h
    rw [undeployer_cycle_eq s db, h]
    rfl
  · intro hmax hcount
    simp only [Controller.stopper_cycle]
    rw [if_pos (by rw [hmax, hcount]; omega)]

/-- C2 witness: at `max_started = 3` with exactly three started builds and
five stopped builds, the stopper does nothing; and with no todo build the
initializer does nothing. -/
theorem scheduler_no_capacity_no_action_witness :
    Controller.stopper_cycle sampleSettings threeStartedFiveStoppedDb = [] ∧
    Controller.initializer_cycle sampleSettings threeStartedFiveStoppedDb =
      [] :=
  ⟨(scheduler_no_capacity_no_action sampleSettings
      threeStartedFiveStoppedDb).2.2.2.2.2.2 rfl (by decide),
   (scheduler_no_capacity_no_action sampleSettings
      threeStartedFiveStoppedDb).2.1 (by decide)⟩

/-- C3: `deploy_or_delay_start` starts the existing build when the exact
commit identity is already indexed and deploys otherwise; two successive
calls with identical arguments, the first call's build having been indexed in
between, create exactly one deployment, the second resolving to `start()`. -/
theorem deploy_or_delay_start_idempotent (db db' : BuildsDb)
    (repo target_branch : String) (pr : Option Nat) (git_commit : String)
    (b : Build) :
    (db.get_for_commit repo target_branch pr git_commit = some b →
      Controller.deploy_or_delay_start db repo target_branch pr git_commit =
        DeployAction.start b) ∧
    (db.get_for_commit repo target_branch pr git_commit = none →
      Controller.deploy_or_delay_start db repo target_branch pr git_commit =
        DeployAction.deploy repo target_branch pr git_commit) ∧
    (db.get_for_commit repo target_branch pr git_commit = none →
     db'.get_for_commit repo target_branch pr git_commit = some b →
      ([Controller.deploy_or_delay_start db repo target_branch pr git_commit,
        Controller.deploy_or_delay_start db' repo target_branch pr
          git_commit].countP DeployAction.is_deploy = 1 ∧
       Controller.deploy_or_delay_start db' repo target_branch pr git_commit =
         DeployAction.start b)) := by
  refine ⟨?_, ?_, ?_⟩
  · intro h
    simp only [Controller.deploy_or_delay_start, h]
  · intro h
    simp only [Controller.deploy_or_delay_start, h]
  · intro h1 h2
    simp only [Controller.deploy_or_delay_start, h1, h2]
    exact ⟨rfl, trivial⟩

/-- An empty db, before any build of the scenario exists. -/
def emptyDb : BuildsDb := BuildsDb.empty

/-- The build deployed by the C3 scenario's first call. -/
def scenarioBuild : Build :=
  mkBuild "scenario" BuildStatus.deploying BuildInitStatus.todo 9

/-- The db after the C3 scenario's first call has been indexed. -/
def scenarioDb : BuildsDb := ⟨[scenarioBuild]⟩

/-- C3 witness: on the empty db the call deploys; on the db holding the
indexed build the call starts it, and across the two calls exactly one
deployment is created. -/
theorem deploy_or_delay_start_idempotent_witness :
    Controller.deploy_or_delay_start scenarioDb "org/repo" "16.0" none
      "commit-scenario" = DeployAction.start scenarioBuild ∧
    Controller.deploy_or_delay_start emptyDb "org/repo" "16.0" none
      "commit-scenario" =
        DeployAction.deploy "org/repo" "16.0" none "commit-scenario" ∧
    [Controller.deploy_or_delay_start emptyDb "org/repo" "16.0" none
        "commit-scenario",
      Controller.deploy_or_delay_start scenarioDb "org/repo" "16.0" none
        "commit-scenario"].countP DeployAction.is_deploy = 1 :=
  ⟨(deploy_or_delay_start_idempotent scenarioDb scenarioDb "org/repo" "16.0"
      none "commit-scenario" scenarioBuild).1 (by decide),
   (deploy_or_delay_start_idempotent emptyDb scenarioDb "org/repo" "16.0"
      none "commit-scenario" scenarioBuild).2.1 (by decide),
   ((deploy_or_delay_start_idempotent emptyDb scenarioDb "org/repo" "16.0"
      none "commit-scenario" scenarioBuild).2.2 (by decide) (by decide)).1⟩

/-- C4: a deployment event with a truthy build label is upserted on
`ADDED`/`MODIFIED` and removed by name on `DELETED`, and the wake-up event is
signalled after every processed event; an event without the build label
leaves the db unchanged and signals nothing. -/
theorem deployment_watcher_step_spec (db : BuildsDb) (event_type : String)
    (d : Deployment) :
    (labelGet d.labels "runboat/build" = none →
      Controller.deployment_watcher_step db event_type d = (db, false)) ∧
    (labelGet d.labels "runboat/build" = some "" →
      Controller.deployment_watcher_step db event_type d = (db, false)) ∧
    (∀ n, labelGet d.labels "runboat/build" = some n → n ≠ "" →
      ((event_type = "ADDED" ∨ event_type = "MODIFIED" →
        Controller.deployment_watcher_step db event_type d =
          (db.add (Build.from_deployment d), true)) ∧
       (event_type = "DELETED" →
        Controller.deployment_watcher_step db event_type d =
          (db.remove n, true)) ∧
       (Controller.deployment_watcher_step db event_type d).2 = true)) := by
  refine ⟨?_, ?_, ?_⟩
  · intro h
    simp only [Controller.deployment_watcher_step, h]
  · intro h
    simp only [Controller.deployment_watcher_step, h]
    rfl
  · intro n hn hne
    simp only [Controller.deployment_watcher_step, hn]
    rw [if_neg hne]
    refine ⟨?_, ?_, rfl⟩
    · intro he
      rw [if_pos he]
    · intro he
      have hne1 : ¬(event_type = "ADDED" ∨ event_type = "MODIFIED") := by
        rw [he]; simp
      rw [if_neg hne1, if_pos he]

/-- A deployment resource carrying the build label of `scenarioBuild`. -/
def labeledDeployment : Deployment :=
  { labels := [("runboat/build", "scenario")], derived_build := scenarioBuild }

/-- A deployment resource without the build label. -/
def unlabeledDeployment : Deployment :=
  { labels := [("app", "other")],
    derived_build := mkBuild "x" BuildStatus.deploying BuildInitStatus.todo 1 }

/-- C4 witness: concrete `ADDED`, `DELETED`, unlabeled and unexpected-type
events behave as `deployment_watcher_step_spec` states. -/
theorem deployment_watcher_step_spec_witness :
    Controller.deployment_watcher_step emptyDb "ADDED" labeledDeployment =
      (emptyDb.add (Build.from_deployment labeledDeployment), true) ∧
    Controller.deployment_watcher_step scenarioDb "DELETED"
      labeledDeployment = (scenarioDb.remove "scenario", true) ∧
    (Controller.deployment_watcher_step scenarioDb "BOOKMARK"
      labeledDeployment).2 = true ∧
    Controller.deployment_watcher_step scenarioDb "ADDED"
      unlabeledDeployment = (scenarioDb, false) :=
  ⟨((deployment_watcher_step_spec emptyDb "ADDED" labeledDeployment).2.2
      "scenario" rfl (by decide)).1 (Or.inl rfl),
   ((deployment_watcher_step_spec scenarioDb "DELETED" labeledDeployment).2.2
      "scenario" rfl (by decide)).2.1 rfl,
   ((deployment_watcher_step_spec scenarioDb "BOOKMARK"
      labeledDeployment).2.2 "scenario" rfl (by decide)).2.2,
   (deployment_watcher_step_spec scenarioDb "ADDED" unlabeledDeployment).1
      rfl⟩

/-- C5: an iteration of the `walking_dead` supervisor whose body raises logs
the exception, sleeps the fixed 5 seconds and restarts the same loop function
from its beginning, and a restarted deployment-watcher session discards the
prior db: before any event of the new session is consumed the db is empty. -/
theorem walking_dead_restart_and_reset (rest : List Bool)
    (prior : BuildsDb) (events : List (String × Deployment)) :
    Controller.walking_dead (true :: rest) =
      [SupEvent.restarting_log, SupEvent.run_body, SupEvent.exception_log,
        SupEvent.sleep_seconds 5] ++ Controller.walking_dead rest ∧
    Controller.walking_dead (false :: rest) =
      [SupEvent.restarting_log, SupEvent.run_body] ++
        Controller.walking_dead rest ∧
    Controller.deployment_watcher_session prior events =
      Controller.deployment_watcher_events BuildsDb.empty events ∧
    Controller.deployment_watcher_session prior [] = BuildsDb.empty :=
  ⟨rfl, rfl, rfl, rfl⟩

theorem job_watcher_step_resolved (db : BuildsDb) (event_type : String)
    (job : JobResource) (fromName : String → Option Build) (n : String)
    (b : Build)
    (hbl : labelGet job.labels "runboat/build" = some n) (hne : n ≠ "")
    (hev : event_type = "ADDED" ∨ event_type = "MODIFIED")
    (hres : Controller.resolve_build db fromName n = some b)
    (hkind : labelGet job.labels "runboat/job-kind" = some "initialize" ∨
      labelGet job.labels "runboat/job-kind" = some "cleanup") :
    Controller.job_watcher_step db event_type job fromName =
      (if labelGet job.labels "runboat/job-kind" = some "initialize" then
        [(b, if job.status.succeeded then JobHook.initialize_succeeded
             else if job.status.failed then JobHook.initialize_failed
             else JobHook.initialize_started)]
      else
        [(b, if job.status.succeeded then JobHook.cleanup_succeeded
             else if job.status.failed then JobHook.cleanup_failed
             else JobHook.cleanup_started)]) := by
  simp only [Controller.job_watcher_step, hbl]
  rw [if_neg hne]
  have hkne : ¬(labelGet job.labels "runboat/job-kind" ≠ some "initialize" ∧
      labelGet job.labels "runboat/job-kind" ≠ some "cleanup") := by
    rcases hkind with h | h <;> rw [h] <;> simp
  rw [if_neg hkne, if_pos hev, hres]
  rcases hkind with h | h <;> rw [h] <;> simp

/-- C6: the job watcher invokes no transition hook (and fails on nothing) for
an event without a truthy build label, an event whose job-kind label is
outside `{initialize, cleanup}`, a `DELETED` event, or a lookup miss where
neither the db nor the `from_name` fallback resolves the build. -/
theorem job_watcher_skips (db : BuildsDb) (event_type : String)
    (job : JobResource) (fromName : String → Option Build) :
    (labelGet job.labels "runboat/build" = none →
      Controller.job_watcher_step db event_type job fromName = []) ∧
    (labelGet job.labels "runboat/build" = some "" →
      Controller.job_watcher_step db event_type job fromName = []) ∧
    (∀ k, labelGet job.labels "runboat/job-kind" = k →
      k ≠ some "initialize" → k ≠ some "cleanup" →
      Controller.job_watcher_step db event_type job fromName = []) ∧
    (event_type = "DELETED" →
      Controller.job_watcher_step db event_type job fromName = []) ∧
    (∀ n, labelGet job.labels "runboat/build" = some n →
      Controller.resolve_build db fromName n = none →
      Controller.job_watcher_step db event_type job fromName = []) := by
  refine ⟨?_, ?_, ?_, ?_, ?_⟩
  · intro h
    simp only [Controller.job_watcher_step, h]
  · intro h
    simp only [Controller.job_watcher_step, h]
    simp
  · intro k hk hki hkc
    simp only [Controller.job_watcher_step, hk]
    cases hbl : labelGet job.labels "runboat/build" with
    | none => rfl
    | some n =>
      dsimp only
      by_cases hne : n = ""
      · rw [if_pos hne]
      · rw [if_neg hne, if_pos ⟨hki, hkc⟩]
  · intro he
    simp only [Controller.job_watcher_step]
    cases hbl : labelGet job.labels "runboat/build" with
    | none => rfl
    | some n =>
      dsimp only
      by_cases hne : n = ""
      · rw [if_pos hne]
      · rw [if_neg hne]
        by_cases hkind :
            labelGet job.labels "runboat/job-kind" ≠ some "initialize" ∧
              labelGet job.labels "runboat/job-kind" ≠ some "cleanup"
        · rw [if_pos hkind]
        · rw [if_neg hkind]
          have hno : ¬(event_type = "ADDED" ∨ event_type = "MODIFIED") := by
            rw [he]; simp
          rw [if_neg hno]
  · intro n hbl hres
    simp only [Controller.job_watcher_step, hbl]
    by_cases hne : n = ""
    · rw [if_pos hne]
    · rw [if_neg hne]
      by_cases hkind :
          labelGet job.labels "runboat/job-kind" ≠ some "initialize" ∧
            labelGet job.labels "runboat/job-kind" ≠ some "cleanup"
      · rw [if_pos hkind]
      · rw [if_neg hkind]
        by_cases hev : event_type = "ADDED" ∨ event_type = "MODIFIED"
        · rw [if_pos hev, hres]
        · rw [if_neg hev]

/-- An initialization job resource for `scenarioBuild`, with a succeeded
status. -/
def initJobSucceeded : JobResource :=
  { labels := [("runboat/build", "scenario"),
      ("runboat/job-kind", "initialize")],
    status := { succeeded := true, failed := false } }

/-- A cleanup job resource for `scenarioBuild`, with a running status. -/
def cleanupJobRunning : JobResource :=
  { labels := [("runboat/build", "scenario"),
      ("runboat/job-kind", "cleanup")],
    status := { succeeded := false, failed := false } }

/-- A job resource without the build label. -/
def unlabeledJob : JobResource :=
  { labels := [("runboat/job-kind", "initialize")],
    status := { succeeded := true, failed := false } }

/-- A job resource whose job-kind label is outside the recognized set. -/
def wrongKindJob : JobResource :=
  { labels := [("runboat/build", "scenario"),
      ("runboat/job-kind", "backup")],
    status := { succeeded := true, failed := false } }

/-- The fallback lookup that never finds a build. -/
def noFromName : String → Option Build := fun _ => none

/-- C6 witness: an unlabeled job, a wrong-kind job, a `DELETED` event and a
lookup miss each produce no hook. -/
theorem job_watcher_skips_witness :
    Controller.job_watcher_step scenarioDb "ADDED" unlabeledJob noFromName =
      [] ∧
    Controller.job_watcher_step scenarioDb "ADDED" wrongKindJob noFromName =
      [] ∧
    Controller.job_watcher_step scenarioDb "DELETED" initJobSucceeded
      noFromName = [] ∧
    Controller.job_watcher_step emptyDb "ADDED" initJobSucceeded noFromName =
      [] :=
  ⟨(job_watcher_skips scenarioDb "ADDED" unlabeledJob noFromName).1 rfl,
   (job_watcher_skips scenarioDb "ADDED" wrongKindJob noFromName).2.2.1
      (some "backup") rfl (by decide) (by decide),
   (job_watcher_skips scenarioDb "DELETED" initJobSucceeded
      noFromName).2.2.2.1 rfl,
   (job_watcher_skips emptyDb "ADDED" initJobSucceeded noFromName).2.2.2.2
      "scenario" rfl (by decide)⟩

/-- C7: an `ADDED`/`MODIFIED` job event of kind initialize (resp. cleanup)
whose build resolves — db first, `from_name` fallback second — invokes
exactly one hook: the succeeded hook when the status reports succeeded, else
the failed hook when it reports failed, else the started hook. -/
theorem job_watcher_dispatch (db : BuildsDb) (event_type : String)
    (job : JobResource) (fromName : String → Option Build) (n : String)
    (b : Build)
    (hbl : labelGet job.labels "runboat/build" = some n) (hne : n ≠ "")
    (hev : event_type = "ADDED" ∨ event_type = "MODIFIED")
    (hres : Controller.resolve_build db fromName n = some b) :
    (labelGet job.labels "runboat/job-kind" = some "initialize" →
      Controller.job_watcher_step db event_type job fromName =
        [(b, if job.status.succeeded then JobHook.initialize_succeeded
             else if job.status.failed then JobHook.initialize_failed
             else JobHook.initialize_started)]) ∧
    (labelGet job.labels "runboat/job-kind" = some "cleanup" →
      Controller.job_watcher_step db event_type job fromName =
        [(b, if job.status.succeeded then JobHook.cleanup_succeeded
             else if job.status.failed then JobHook.cleanup_failed
             else JobHook.cleanup_started)]) ∧
    ((labelGet job.labels "runboat/job-kind" = some "initialize" ∨
      labelGet job.labels "runboat/job-kind" = some "cleanup") →
      (Controller.job_watcher_step db event_type job fromName).length = 1) := by
  have hinit : labelGet job.labels "runboat/job-kind" = some "initialize" →
      Controller.job_watcher_step db event_type job fromName =
        [(b, if job.status.succeeded then JobHook.initialize_succeeded
             else if job.status.failed then JobHook.initialize_failed
             else JobHook.initialize_started)] := by
    intro hk
    rw [job_watcher_step_resolved db event_type job fromName n b hbl hne hev
      hres (Or.inl hk), if_pos hk]
  have hclean : labelGet job.labels "runboat/job-kind" = some "cleanup" →
      Controller.job_watcher_step db event_type job fromName =
        [(b, if job.status.succeeded then JobHook.cleanup_succeeded
             else if job.status.failed then JobHook.cleanup_failed
             else JobHook.cleanup_started)] := by
    intro hk
    rw [job_watcher_step_resolved db event_type job fromName n b hbl hne hev
      hres (Or.inr hk), if_neg (by rw [hk]; simp)]
  refine ⟨hinit, hclean, ?_⟩
  intro hor
  rcases hor with hk | hk
  · rw [hinit hk]
    rfl
  · rw [hclean hk]
    rfl

/-- C7 witness: a succeeded initialize job for an indexed build invokes
exactly `on_initialize_succeeded`, and a running cleanup job invokes exactly
`on_cleanup_started`, resolving the build from the db. -/
theorem job_watcher_dispatch_witness :
    Controller.job_watcher_step scenarioDb "ADDED" initJobSucceeded
      noFromName = [(scenarioBuild, JobHook.initialize_succeeded)] ∧
    Controller.job_watcher_step scenarioDb "MODIFIED" cleanupJobRunning
      noFromName = [(scenarioBuild, JobHook.cleanup_started)] ∧
    (Controller.job_watcher_step scenarioDb "ADDED" initJobSucceeded
      noFromName).length = 1 :=
  ⟨(job_watcher_dispatch scenarioDb "ADDED" initJobSucceeded noFromName
      "scenario" scenarioBuild rfl (by decide) (Or.inl rfl) (by decide)).1
      rfl,
   (job_watcher_dispatch scenarioDb "MODIFIED" cleanupJobRunning noFromName
      "scenario" scenarioBuild rfl (by decide) (Or.inr rfl) (by decide)).2.1
      rfl,
   (job_watcher_dispatch scenarioDb "ADDED" initJobSucceeded noFromName
      "scenario" scenarioBuild rfl (by decide) (Or.inl rfl)
      (by decide)).2.2 (Or.inl rfl)⟩

/-- C9: when a job status reports both succeeded and failed, the succeeded
branch wins — the succeeded hook is the one invoked, the failed hook is not,
because the succeeded flag is tested first. -/
theorem job_watcher_succeeded_precedence (db : BuildsDb)
    (event_type : String) (job : JobResource)
    (fromName : String → Option Build) (n : String) (b : Build)
    (hbl : labelGet job.labels "runboat/build" = some n) (hne : n ≠ "")
    (hev : event_type = "ADDED" ∨ event_type = "MODIFIED")
    (hres : Controller.resolve_build db fromName n = some b)
    (hs : job.status.succeeded = true) (hf : job.status.failed = true) :
    (labelGet job.labels "runboat/job-kind" = some "initialize" →
      Controller.job_watcher_step db event_type job fromName =
        [(b, JobHook.initialize_succeeded)]) ∧
    (labelGet job.labels "runboat/job-kind" = some "cleanup" →
      Controller.job_watcher_step db event_type job fromName =
        [(b, JobHook.cleanup_succeeded)]) := by
  constructor
  · intro hk
    rw [job_watcher_step_resolved db event_type job fromName n b hbl hne hev
      hres (Or.inl hk), if_pos hk]
    simp [hs]
  · intro hk
    rw [job_watcher_step_resolved db event_type job fromName n b hbl hne hev
      hres (Or.inr hk), if_neg (by rw [hk]; simp)]
    simp [hs]

/-- An initialization job whose status reports both succeeded and failed. -/
def bothFlagsInitJob : JobResource :=
  { labels := [("runboat/build", "scenario"),
      ("runboat/job-kind", "initialize")],
    status := { succeeded := true, failed := true } }

/-- A cleanup job whose status reports both succeeded and failed. -/
def bothFlagsCleanupJob : JobResource :=
  { labels := [("runboat/build", "scenario"),
      ("runboat/job-kind", "cleanup")],
    status := { succeeded := true, failed := true } }

/-- C9 witness: with both status flags set, the initialize job yields the
succeeded hook and the cleanup job yields the succeeded hook. -/
theorem job_watcher_succeeded_precedence_witness :
    Controller.job_watcher_step scenarioDb "MODIFIED" bothFlagsInitJob
      noFromName = [(scenarioBuild, JobHook.initialize_succeeded)] ∧
    Controller.job_watcher_step scenarioDb "MODIFIED" bothFlagsCleanupJob
      noFromName = [(scenarioBuild, JobHook.cleanup_succeeded)] :=
  ⟨(job_watcher_succeeded_precedence scenarioDb "MODIFIED" bothFlagsInitJob
      noFromName "scenario" scenarioBuild rfl (by decide) (Or.inr rfl)
      (by decide) rfl rfl).1 rfl,
   (job_watcher_succeeded_precedence scenarioDb "MODIFIED"
      bothFlagsCleanupJob noFromName "scenario" scenarioBuild rfl
      (by decide) (Or.inr rfl) (by decide) rfl rfl).2 rfl⟩

/-- C8: the controller's `started`, `initializing` and `deployed` properties
are recomputed from the live db on every access, so after any sequence of db
mutations each equals the cardinality of the corresponding filter over the
current db contents. -/
theorem controller_counts_live (ms : List DbMutation) (db0 : BuildsDb) :
    Controller.started (db0.apply_mutations ms) =
      ((db0.apply_mutations ms).builds.filter
        (fun x => x.status == BuildStatus.started)).length ∧
    Controller.initializing (db0.apply_mutations ms) =
      ((db0.apply_mutations ms).builds.filter
        (fun x => x.init_status == BuildInitStatus.started)).length ∧
    Controller.deployed (db0.apply_mutations ms) =
      (db0.apply_mutations ms).builds.length := by
  refine ⟨?_, ?_, rfl⟩
  · simp [Controller.started, BuildsDb.count_by_status,
      List.countP_eq_length_filter]
  · simp [Controller.initializing, BuildsDb.count_by_init_status,
      List.countP_eq_length_filter]

/-- C10: after `Controller.stop`, `_tasks` still holds the handles of the
cancelled tasks (the final assignment writes `[]` to the distinct `_task`
attribute), so a subsequent `start` appends the new tasks alongside the stale
cancelled ones. -/
theorem controller_stop_tasks_frame (c : ControllerTasks)
    (newTasks : List TaskHandle) :
    (Controller.stop_tasks c).tasks.map TaskHandle.id =
      c.tasks.map TaskHandle.id ∧
    (Controller.stop_tasks c).tasks.length = c.tasks.length ∧
    (Controller.stop_tasks c).tasks.all TaskHandle.cancelled = true ∧
    (Controller.stop_tasks c).task = some [] ∧
    (Controller.start_tasks (Controller.stop_tasks c) newTasks).tasks =
      c.tasks.map TaskHandle.cancel ++ newTasks ∧
    (Controller.start_tasks (Controller.stop_tasks c) newTasks).tasks.length =
      c.tasks.length + newTasks.length := by
  refine ⟨?_, ?_, ?_, rfl, rfl, ?_⟩
  · simp [Controller.stop_tasks, List.map_map]
    exact fun a _ => rfl
  · simp [Controller.stop_tasks]
  · simp [Controller.stop_tasks, TaskHandle.cancel, List.all_eq_true]
  · simp [Controller.stop_tasks, Controller.start_tasks]
